import Mathlib

/-!
Verification of the inspect_harbor repository: a shallow embedding of the
reward-parsing, sandbox file-transfer, environment-variable resolution,
oracle lifecycle and environment-converter code, with theorems settling
the behavioral claims about them.
-/

/-! ## Python string primitives used by the code -/

/-- Characters stripped by Python `str.strip()` (ASCII whitespace). -/
def isPySpace (c : Char) : Bool :=
  c == ' ' || c == '\t' || c == '\n' || c == '\r' || c == '\x0b' || c == '\x0c'

/-- Model of Python `str.strip()`. -/
def pyStrip (s : String) : String :=
  String.mk (((s.data.dropWhile isPySpace).reverse.dropWhile isPySpace).reverse)

/-- Model of Python slicing `s[:n]`. -/
def pyTake (n : Nat) (s : String) : String :=
  String.mk (s.data.take n)

/-! ## JSON values as decoded by Python `json.loads`
(`obj` keeps the mapping's insertion-iteration order, as Python dicts do). -/

inductive JValue where
  | null
  | bool (b : Bool)
  | num (q : Rat)
  | str (s : String)
  | arr (elems : List JValue)
  | obj (entries : List (String × JValue))

/-- Model of Python `float(x)` applied to a `json.loads` result value.
Numbers and booleans coerce; strings go through the same `float(str)`
primitive (passed in as `pyfloat`); `None`, lists and dicts raise. -/
def pyFloatOfJson (pyfloat : String → Option Rat) : JValue → Option Rat
  | .num q => some q
  | .bool b => some (if b then 1 else 0)
  | .str s => pyfloat s
  | _ => none

/-! ## Reward parsing (`src/inspect_harbor/_scorer.py`, `_parse_reward_file`) -/

/-- The error classes raised by `_parse_reward_file`. -/
inductive RewardError where
  | rewardFileEmptyError (msg : String)
  | verifierOutputParseError (msg : String)
  | rewardFileNotFoundError (msg : String)
  deriving DecidableEq

def reward_text_path : String := "/logs/verifier/reward.txt"

def reward_json_path : String := "/logs/verifier/reward.json"

/-- Embedding of `_parse_reward_file`.  `pyfloat` models the builtin
`float(str)` (partial), `pyjson` models `json.loads` (partial), and
`read_file` models `sandbox().read_file` (`none` = `FileNotFoundError`). -/
def _parse_reward_file (pyfloat : String → Option Rat) (pyjson : String → Option JValue)
    (read_file : String → Option String) (exit_code : Int) :
    Except RewardError (Rat × Option (List (String × JValue))) :=
  match read_file reward_text_path with
  | some reward_content =>
    if pyStrip reward_content = "" then
      .error (.rewardFileEmptyError ("Reward file is empty: " ++ reward_text_path))
    else
      match pyfloat (pyStrip reward_content) with
      | some x => .ok (x, none)
      | none =>
        .error (.verifierOutputParseError
          ("Failed to parse reward.txt as float: " ++ pyTake 100 reward_content))
  | none =>
    match read_file reward_json_path with
    | some reward_json_content =>
      if pyStrip reward_json_content = "" then
        .error (.rewardFileEmptyError ("Reward file is empty: " ++ reward_json_path))
      else
        match pyjson reward_json_content with
        | some (JValue.obj entries) =>
          match entries.lookup "reward" with
          | some v =>
            match pyFloatOfJson pyfloat v with
            | some x => .ok (x, some entries)
            | none =>
              .error (.verifierOutputParseError
                ("Failed to parse reward.json: " ++ pyTake 100 reward_json_content))
          | none =>
            match entries with
            | (_, v₀) :: _ =>
              match pyFloatOfJson pyfloat v₀ with
              | some x => .ok (x, some entries)
              | none =>
                .error (.verifierOutputParseError
                  ("Failed to parse reward.json: " ++ pyTake 100 reward_json_content))
            | [] =>
              .error (.verifierOutputParseError
                ("Reward JSON is not a valid dict or is empty: " ++ pyTake 100 reward_json_content))
        | some _ =>
          .error (.verifierOutputParseError
            ("Reward JSON is not a valid dict or is empty: " ++ pyTake 100 reward_json_content))
        | none =>
          .error (.verifierOutputParseError
            ("Failed to parse reward.json: " ++ pyTake 100 reward_json_content))
    | none =>
      .error (.rewardFileNotFoundError
        ("No reward file found at " ++ reward_text_path ++ " or " ++ reward_json_path ++
          ". Test script exit code was " ++ toString exit_code ++ "."))

/-! ## Sandbox operations

Each sandbox side effect is recorded as one `SbOp`; a run of a component is
modelled as the list of operations it issued, in order. -/

inductive SbOp where
  | write (path : String) (content : List Nat)
  | exec (cmd : List String) (env : Option (List (String × String)))
  deriving DecidableEq

/-- Reading back a path from the sandbox filesystem produced by a list of
write operations (a later write overrides an earlier one). -/
def readBack : List SbOp → String → Option (List Nat)
  | [], _ => none
  | op :: rest, path =>
    match readBack rest path with
    | some c => some c
    | none =>
      match op with
      | .write p c => if p = path then some c else none
      | _ => none

/-- Embedding of `cleanup_sandbox_directories` (`harbor/_sandbox_utils.py`).
`rm_failure` models, per path, whether the `rm -rf` exec raises one of the
caught classes (`RuntimeError`/`OSError`/`TimeoutError`) and with what
message.  Returns the operations attempted and the warnings logged; failures
are swallowed, so the function has no error channel. -/
def cleanup_sandbox_directories (rm_failure : String → Option String)
    (paths : List String) : List SbOp × List String :=
  (paths.map fun p => SbOp.exec ["rm", "-rf", p] none,
   paths.filterMap fun p =>
     (rm_failure p).map fun e => "Failed to cleanup sandbox directory " ++ p ++ ": " ++ e)

/-- The parts of the `Score` object built by `harbor_scorer` that the claims
talk about. -/
structure ScoreVal where
  value : Rat
  answer : String
  reward_dict : Option (List (String × JValue))

/-- Embedding of the tail of `harbor_scorer.score` (`_scorer.py`): everything
after the verifier exec — reward parsing, `Score` construction, and the
cleanup call.  Returns the outcome, the sandbox operations issued in this
phase, and the warnings logged by cleanup.  Mirroring the source, the
cleanup call sits on the straight-line path after `Score` construction, not
in a `finally` block. -/
def score_after_exec (pyfloat : String → Option Rat) (pyjson : String → Option JValue)
    (read_file : String → Option String) (exit_code : Int)
    (rm_failure : String → Option String) :
    Except RewardError ScoreVal × List SbOp × List String :=
  match _parse_reward_file pyfloat pyjson read_file exit_code with
  | .error e => (.error e, [], [])
  | .ok (reward_value, reward_dict) =>
    let score_result : ScoreVal :=
      ⟨reward_value, if 0 < reward_value then "PASS" else "FAIL", reward_dict⟩
    let c := cleanup_sandbox_directories rm_failure ["/tests", "/logs/verifier"]
    (.ok score_result, c.1, c.2)

/-! ## Environment-variable resolution (`harbor/_sandbox_utils.py`, `resolve_env_vars`) -/

/-- Model of `re.compile(...).fullmatch(value)` for the placeholder regex:
the whole value must be a dollar sign, an opening brace, one or more
non-closing-brace characters, and a closing brace.  Returns the captured
variable name. -/
def placeholderName (v : String) : Option String :=
  match v.data with
  | '$' :: '{' :: rest =>
    if rest.getLast? == some '}' && !rest.dropLast.isEmpty && rest.dropLast.all (· != '}')
    then some (String.mk rest.dropLast)
    else none
  | _ => none

/-- Embedding of `resolve_env_vars`.  `os_environ` models the host process
environment; the input mapping is its items in insertion-iteration order. -/
def resolve_env_vars (os_environ : String → Option String) :
    List (String × String) → Except String (List (String × String))
  | [] => .ok []
  | (key, value) :: rest =>
    match placeholderName value with
    | some var_name =>
      match os_environ var_name with
      | none =>
        .error ("Environment variable \x27" ++ var_name ++ "\x27 not found in host environment")
      | some x =>
        match resolve_env_vars os_environ rest with
        | .ok r => .ok ((key, x) :: r)
        | .error e => .error e
    | none =>
      match resolve_env_vars os_environ rest with
      | .ok r => .ok ((key, value) :: r)
      | .error e => .error e

/-- The first placeholder in the mapping whose variable is unset in the host
environment (the one whose name `resolve_env_vars` reports). -/
def firstMissingVar (os_environ : String → Option String)
    (env_dict : List (String × String)) : Option String :=
  env_dict.findSome? fun e =>
    match placeholderName e.2 with
    | some n => if (os_environ n).isSome then none else some n
    | none => none

/-! ## Local filesystem and directory transfer
(`harbor/_sandbox_utils.py`, `copy_directory_to_sandbox`) -/

/-- A host filesystem: regular files (path components ↦ bytes) plus the set
of existing directories.  Paths are lists of name components. -/
structure LocalFS where
  files : List (List String × List Nat)
  dirs : List (List String)

/-- Whether `p` lies strictly under directory `dir` (component-wise). -/
def underDir : (dir p : List String) → Bool
  | [], [] => false
  | [], _ :: _ => true
  | _ :: _, [] => false
  | d :: ds, c :: cs => d == c && underDir ds cs

/-- Model of `local_dir_path.rglob("*")` restricted to regular files,
paired with `file_path.relative_to(local_dir_path)`:
the files strictly below `dir`, keyed by their relative path components.
A nonexistent directory simply contributes no files. -/
def filesUnder (fs : LocalFS) (dir : List String) : List (List String × List Nat) :=
  fs.files.filterMap fun e =>
    if underDir dir e.1 then some (e.1.drop dir.length, e.2) else none

/-- Rendering of a relative path on the host: components joined by the host
separator (`/` on POSIX, `\` on Windows), as `str(rel_path)` produces. -/
def renderChars (sep : Char) : List String → List Char
  | [] => []
  | s :: rest => s.data ++ (if rest.isEmpty then [] else sep :: renderChars sep rest)

def renderPath (sep : Char) (p : List String) : String :=
  String.mk (renderChars sep p)

/-- Model of `.replace("\\", "/")` (the pattern is a single character, so
this is a character map). -/
def normalizeSep (s : String) : String :=
  String.mk (s.data.map fun c => if c = '\\' then '/' else c)

/-- Embedding of `copy_directory_to_sandbox`: for every regular file under
`local_dir`, write its raw bytes to
`f"{container_path}/{rel_path}".replace("\\", "/")`. -/
def copy_directory_to_sandbox (sep : Char) (fs : LocalFS) (local_dir : List String)
    (container_path : String) : List SbOp :=
  (filesUnder fs local_dir).map fun e =>
    SbOp.write (normalizeSep (container_path ++ "/" ++ renderPath sep e.1)) e.2

/-! ## Oracle solver (`harbor/_solver.py`, `oracle`) -/

/-- The exceptions the oracle can raise: `CopySolutionDirError` (the
configuration error class) and the `ValueError` from `resolve_env_vars`. -/
inductive OracleErr where
  | copySolutionDirError (msg : String)
  | valueError (msg : String)
  deriving DecidableEq

/-- The sample-metadata keys `oracle` reads (`none` models both a missing
key and a falsy empty value). -/
structure OracleMeta where
  solution_dir : Option (List String)
  solve_path : Option (List String)
  solution_env : List (String × String)

/-- Model of `Path(p).exists()`: true when `p` is a recorded directory or a
regular file (Python's `exists()` does not distinguish the two). -/
def pathExists (fs : LocalFS) (p : List String) : Bool :=
  p ∈ fs.dirs || fs.files.any fun e => e.1 == p

/-- Model of the success condition of `solve_path.relative_to(solution_dir)`:
it succeeds exactly when `dir` is a (possibly equal) component-wise prefix
of `p`; at equality Python returns the relative path `.`. -/
def underOrEq : (dir p : List String) → Bool
  | [], _ => true
  | _ :: _, [] => false
  | d :: ds, c :: cs => d == c && underOrEq ds cs

/-- Rendering of the result of `relative_to` on the host: the empty
relative path prints as `.` (Python's `str(Path("."))`), otherwise the
components joined by the host separator. -/
def renderRel (sep : Char) (rel : List String) : String :=
  if rel.isEmpty then "." else renderPath sep rel

/-- The `solution_env` resolution step of `oracle`:
`resolve_env_vars(raw) if raw else None`. -/
def oracleEnv (os_environ : String → Option String) (meta : OracleMeta) :
    Except String (Option (List (String × String))) :=
  if meta.solution_env.isEmpty then .ok none
  else
    match resolve_env_vars os_environ meta.solution_env with
    | .ok r => .ok (some r)
    | .error e => .error e

/-- Embedding of the `oracle` solver body: metadata checks, environment
resolution, the `solution_dir.exists()` check (true for a directory or a
regular file at that path), copy into `/solution`, the
`relative_to` computation (which also succeeds when the two paths are
equal, rendering the relative path as `.`), script execution, and env-var
cleanup.  Returns the outcome together with the sandbox operations issued
(also on the error paths, recording what had already been done when the
error was raised). -/
def oracle (sep : Char) (os_environ : String → Option String) (meta : OracleMeta)
    (fs : LocalFS) : Except OracleErr Unit × List SbOp :=
  match meta.solution_dir with
  | none => (.error (.copySolutionDirError "solution_dir not found in metadata"), [])
  | some solution_dir =>
    match meta.solve_path with
    | none => (.error (.copySolutionDirError "solve_path not found in metadata"), [])
    | some solve_path =>
      match oracleEnv os_environ meta with
      | .error e => (.error (.valueError e), [])
      | .ok solution_env =>
        if pathExists fs solution_dir then
          let copied := copy_directory_to_sandbox sep fs solution_dir "/solution"
          if underOrEq solution_dir solve_path then
            let relative_solve := solve_path.drop solution_dir.length
            let container_solve_path :=
              normalizeSep ("/solution/" ++ renderRel sep relative_solve)
            let run := copied ++ [SbOp.exec ["bash", "-l", container_solve_path] solution_env]
            match solution_env with
            | some env_list =>
              (.ok (), run ++ env_list.map fun kv => SbOp.exec ["unset", kv.1] none)
            | none => (.ok (), run)
          else
            (.error (.copySolutionDirError
              ("Solve path " ++ renderPath sep solve_path ++
                " is not relative to solution directory " ++ renderPath sep solution_dir)),
             copied)
        else
          (.error (.copySolutionDirError
            ("Solution directory not found: " ++ renderPath sep solution_dir)), [])

/-! ## Environment converter (`harbor/_converters.py`) -/

structure ComposeDeviceReservation where
  count : Int
  capabilities : List String
  options : Option (List (String × String))
  deriving DecidableEq

structure ComposeResourceReservations where
  devices : List ComposeDeviceReservation
  deriving DecidableEq

structure ComposeResourceConfig where
  reservations : ComposeResourceReservations
  deriving DecidableEq

structure ComposeDeploy where
  resources : ComposeResourceConfig
  deriving DecidableEq

structure ComposeBuild where
  context : String
  deriving DecidableEq

structure ComposeService where
  image : Option String := none
  build : Option ComposeBuild := none
  cpus : Option Rat := none
  mem_limit : Option String := none
  command : Option String := none
  init : Option Bool := none
  network_mode : Option String := none
  deploy : Option ComposeDeploy := none
  deriving DecidableEq

structure ComposeConfig where
  services : List (String × ComposeService)
  deriving DecidableEq

/-- The task's declared environment configuration (`harbor_task.config.environment`). -/
structure EnvironmentConfig where
  cpus : Option Rat
  memory_mb : Option Int
  gpus : Option Int
  gpu_types : Option (List String)
  docker_image : Option String
  allow_internet : Bool

/-- The parts of a Harbor task the converter reads: the environment
directory, the parsed pre-authored `docker-compose.yaml` when that file
exists, whether a `Dockerfile` exists, and the declared configuration. -/
structure HarborTaskModel where
  environment_dir : String
  compose_file : Option (List (String × ComposeService))
  dockerfile_exists : Bool
  config_environment : EnvironmentConfig

/-- Python truthiness of an optional string (`if env_config.docker_image`). -/
def pyTruthyStr : Option String → Option String
  | some s => if s.isEmpty then none else some s
  | none => none

/-- Embedding of `_create_gpu_deploy_config`. -/
def _create_gpu_deploy_config (gpus : Int) (gpu_types : Option (List String)) :
    Option ComposeDeploy :=
  if gpus ≤ 0 then none
  else
    let device_options : List (String × String) :=
      match gpu_types with
      | some ts => if ts.isEmpty then [] else [("gpu_types", String.intercalate "," ts)]
      | none => []
    some ⟨⟨⟨[⟨gpus, ["gpu"],
      if device_options.isEmpty then none else some device_options⟩]⟩⟩⟩

/-- The GPU count after override resolution
(`override_gpus if override_gpus is not None else (env_config.gpus if ... else 0)`). -/
def resolved_gpus (t : HarborTaskModel) (override_gpus : Option Int) : Int :=
  override_gpus.getD (t.config_environment.gpus.getD 0)

/-- Embedding of `harbor_to_compose_config` (`harbor/_converters.py`): the
override/default resolution for cpus, memory (with the 6144 MB floor) and
gpus, then either mutation of the pre-authored compose services or
synthesis of the single `default` service. -/
def harbor_to_compose_config (t : HarborTaskModel)
    (override_cpus : Option Int) (override_memory_mb : Option Int)
    (override_gpus : Option Int) : ComposeConfig :=
  let env_config := t.config_environment
  let cpus : Rat :=
    match override_cpus with
    | some oc => (oc : Rat)
    | none => match env_config.cpus with | some c => c | none => 1
  let MIN_MEMORY_MB : Int := 6144
  let memory_mb : Int :=
    match override_memory_mb with
    | some m => m
    | none => max (env_config.memory_mb.getD 0) MIN_MEMORY_MB
  let gpus : Int := resolved_gpus t override_gpus
  let gpu_deploy := _create_gpu_deploy_config gpus env_config.gpu_types
  match t.compose_file with
  | some services =>
    ⟨services.map fun e =>
      (e.1, { e.2 with
        cpus := some cpus
        mem_limit := some (toString memory_mb ++ "m")
        deploy := match gpu_deploy with | some d => some d | none => e.2.deploy })⟩
  | none =>
    let docker_image := pyTruthyStr env_config.docker_image
    ⟨[("default",
      { image := docker_image
        build :=
          if t.dockerfile_exists && docker_image.isNone
          then some ⟨t.environment_dir⟩ else none
        cpus := some cpus
        mem_limit := some (toString memory_mb ++ "m")
        command := some "tail -f /dev/null"
        init := some true
        network_mode := some (if env_config.allow_internet then "bridge" else "none")
        deploy := gpu_deploy })]⟩

/-! ## Theorems -/

/-- Claim C1: reward parsing reads `/logs/verifier/reward.txt` first and
consults `/logs/verifier/reward.json` only when the text file does not
exist (when the text file exists the result is independent of everything
else in the sandbox filesystem); non-blank text content that parses as a
float yields exactly that float with no structured detail; non-blank text
content that does not parse as a float raises the dedicated parse error
whose message carries a content excerpt. -/
theorem c1_reward_txt_priority_and_float
    (pyfloat : String → Option Rat) (pyjson : String → Option JValue)
    (fs fs2 : String → Option String) (exit_code : Int) (c : String) :
    (fs reward_text_path = some c → fs2 reward_text_path = some c →
      _parse_reward_file pyfloat pyjson fs exit_code =
        _parse_reward_file pyfloat pyjson fs2 exit_code) ∧
    (∀ x : Rat, fs reward_text_path = some c → pyStrip c ≠ "" →
      pyfloat (pyStrip c) = some x →
      _parse_reward_file pyfloat pyjson fs exit_code = .ok (x, none)) ∧
    (fs reward_text_path = some c → pyStrip c ≠ "" →
      pyfloat (pyStrip c) = none →
      _parse_reward_file pyfloat pyjson fs exit_code =
        .error (.verifierOutputParseError
          ("Failed to parse reward.txt as float: " ++ pyTake 100 c))) := by
  refine ⟨fun h1 h2 => ?_, fun x h1 h2 h3 => ?_, fun h1 h2 h3 => ?_⟩
  · simp only [_parse_reward_file, h1, h2]
  · simp only [_parse_reward_file, h1, h3, if_neg h2]
  · simp only [_parse_reward_file, h1, h3, if_neg h2]

/-- Witness for C1 at a concrete input: a text reward file containing
`" 2 "` parses to the scalar 2 with no structured detail. -/
theorem c1_reward_txt_priority_and_float_witness :
    pyStrip " 2 " ≠ "" ∧
    _parse_reward_file (fun s => if s = "2" then some 2 else none) (fun _ => none)
      (fun p => if p = reward_text_path then some " 2 " else none) 0 =
      .ok ((2 : Rat), none) :=
  ⟨by decide,
    (c1_reward_txt_priority_and_float (fun s => if s = "2" then some 2 else none)
      (fun _ => none) (fun p => if p = reward_text_path then some " 2 " else none)
      (fun p => if p = reward_text_path then some " 2 " else none) 0 " 2 ").2.1 2
      (by decide) (by decide) (by decide)⟩

/-- Claim C2: when the text file is absent and the JSON file's content
parses as a non-empty JSON mapping, the scalar is the float of the
`"reward"` key when present, otherwise the float of the first value in
insertion-iteration order, with the whole mapping retained as structured
detail; non-mappings, empty mappings, failed float coercions and invalid
JSON all raise the dedicated parse error. -/
theorem c2_reward_json_mapping
    (pyfloat : String → Option Rat) (pyjson : String → Option JValue)
    (fs : String → Option String) (exit_code : Int) (jc : String)
    (hf : fs reward_text_path = none) (hj : fs reward_json_path = some jc)
    (hnb : pyStrip jc ≠ "") :
    (∀ entries v x, pyjson jc = some (JValue.obj entries) →
      entries.lookup "reward" = some v → pyFloatOfJson pyfloat v = some x →
      _parse_reward_file pyfloat pyjson fs exit_code = .ok (x, some entries)) ∧
    (∀ k₀ v₀ rest x, pyjson jc = some (JValue.obj ((k₀, v₀) :: rest)) →
      ((k₀, v₀) :: rest).lookup "reward" = none → pyFloatOfJson pyfloat v₀ = some x →
      _parse_reward_file pyfloat pyjson fs exit_code = .ok (x, some ((k₀, v₀) :: rest))) ∧
    (∀ entries v, pyjson jc = some (JValue.obj entries) →
      entries.lookup "reward" = some v → pyFloatOfJson pyfloat v = none →
      _parse_reward_file pyfloat pyjson fs exit_code =
        .error (.verifierOutputParseError ("Failed to parse reward.json: " ++ pyTake 100 jc))) ∧
    (∀ k₀ v₀ rest, pyjson jc = some (JValue.obj ((k₀, v₀) :: rest)) →
      ((k₀, v₀) :: rest).lookup "reward" = none → pyFloatOfJson pyfloat v₀ = none →
      _parse_reward_file pyfloat pyjson fs exit_code =
        .error (.verifierOutputParseError ("Failed to parse reward.json: " ++ pyTake 100 jc))) ∧
    (pyjson jc = some (JValue.obj []) →
      _parse_reward_file pyfloat pyjson fs exit_code =
        .error (.verifierOutputParseError
          ("Reward JSON is not a valid dict or is empty: " ++ pyTake 100 jc))) ∧
    (∀ w, pyjson jc = some w → (∀ entries, w ≠ JValue.obj entries) →
      _parse_reward_file pyfloat pyjson fs exit_code =
        .error (.verifierOutputParseError
          ("Reward JSON is not a valid dict or is empty: " ++ pyTake 100 jc))) ∧
    (pyjson jc = none →
      _parse_reward_file pyfloat pyjson fs exit_code =
        .error (.verifierOutputParseError ("Failed to parse reward.json: " ++ pyTake 100 jc))) := by
  refine ⟨fun entries v x h1 h2 h3 => ?_, fun k₀ v₀ rest x h1 h2 h3 => ?_,
    fun entries v h1 h2 h3 => ?_, fun k₀ v₀ rest h1 h2 h3 => ?_,
    fun h1 => ?_, fun w h1 h2 => ?_, fun h1 => ?_⟩
  · simp only [_parse_reward_file, hf, hj, if_neg hnb, h1, h2, h3]
  · simp only [_parse_reward_file, hf, hj, if_neg hnb, h1, h2, h3]
  · simp only [_parse_reward_file, hf, hj, if_neg hnb, h1, h2, h3]
  · simp only [_parse_reward_file, hf, hj, if_neg hnb, h1, h2, h3]
  · simp only [_parse_reward_file, hf, hj, if_neg hnb, h1, List.lookup]
  · cases w with
    | obj entries => exact absurd rfl (h2 entries)
    | null => simp only [_parse_reward_file, hf, hj, if_neg hnb, h1]
    | bool b => simp only [_parse_reward_file, hf, hj, if_neg hnb, h1]
    | num q => simp only [_parse_reward_file, hf, hj, if_neg hnb, h1]
    | str s => simp only [_parse_reward_file, hf, hj, if_neg hnb, h1]
    | arr elems => simp only [_parse_reward_file, hf, hj, if_neg hnb, h1]
  · simp only [_parse_reward_file, hf, hj, if_neg hnb, h1]

/-- Witness for C2 at a concrete input: the JSON mapping
`{"accuracy": 0.0, "reward": 1.0}` (text file absent) parses to scalar 1
with the whole mapping retained. -/
theorem c2_reward_json_mapping_witness :
    pyStrip "J" ≠ "" ∧
    _parse_reward_file (fun _ => none)
      (fun s => if s = "J" then
        some (JValue.obj [("accuracy", JValue.num 0), ("reward", JValue.num 1)]) else none)
      (fun p => if p = reward_json_path then some "J" else none) 0 =
      .ok ((1 : Rat), some [("accuracy", JValue.num 0), ("reward", JValue.num 1)]) :=
  ⟨by decide,
    (c2_reward_json_mapping (fun _ => none)
      (fun s => if s = "J" then
        some (JValue.obj [("accuracy", JValue.num 0), ("reward", JValue.num 1)]) else none)
      (fun p => if p = reward_json_path then some "J" else none) 0 "J"
      rfl rfl (by decide)).1
      [("accuracy", JValue.num 0), ("reward", JValue.num 1)] (JValue.num 1) 1
      rfl rfl rfl⟩

/-- Claim C3: blank/whitespace-only content in whichever reward file is
read raises the reward-file-empty error, absence of both files raises the
distinct reward-file-not-found error embedding the verifier exit code, and
the two error constructors are distinct. -/
theorem c3_empty_vs_missing_reward
    (pyfloat : String → Option Rat) (pyjson : String → Option JValue)
    (fs : String → Option String) (exit_code : Int) :
    (∀ c, fs reward_text_path = some c → pyStrip c = "" →
      _parse_reward_file pyfloat pyjson fs exit_code =
        .error (.rewardFileEmptyError ("Reward file is empty: " ++ reward_text_path))) ∧
    (∀ jc, fs reward_text_path = none → fs reward_json_path = some jc → pyStrip jc = "" →
      _parse_reward_file pyfloat pyjson fs exit_code =
        .error (.rewardFileEmptyError ("Reward file is empty: " ++ reward_json_path))) ∧
    (fs reward_text_path = none → fs reward_json_path = none →
      _parse_reward_file pyfloat pyjson fs exit_code =
        .error (.rewardFileNotFoundError
          ("No reward file found at " ++ reward_text_path ++ " or " ++ reward_json_path ++
            ". Test script exit code was " ++ toString exit_code ++ "."))) ∧
    (∀ m m2, RewardError.rewardFileEmptyError m ≠ RewardError.rewardFileNotFoundError m2) := by
  refine ⟨fun c h1 h2 => ?_, fun jc h1 h2 h3 => ?_, fun h1 h2 => ?_,
    fun m m2 h => by cases h⟩
  · simp only [_parse_reward_file, h1, if_pos h2]
  · simp only [_parse_reward_file, h1, h2, if_pos h3]
  · simp only [_parse_reward_file, h1, h2]

/-- Witness for C3 at a concrete input: a whitespace-only text reward file
raises the empty-file error. -/
theorem c3_empty_vs_missing_reward_witness :
    pyStrip " \n " = "" ∧
    _parse_reward_file (fun _ => none) (fun _ => none)
      (fun p => if p = reward_text_path then some " \n " else none) 7 =
      .error (.rewardFileEmptyError ("Reward file is empty: " ++ reward_text_path)) :=
  ⟨by decide,
    (c3_empty_vs_missing_reward (fun _ => none) (fun _ => none)
      (fun p => if p = reward_text_path then some " \n " else none) 7).1
      " \n " (by decide) (by decide)⟩

/-- Counterexample to claim C4: in a scoring run where both reward files
are absent, reward parsing fails and the scorer issues no cleanup
operations at all — removal of `/tests` and `/logs/verifier` is not
attempted on the parse-failure path. -/
theorem c4_cleanup_counterexample :
    (score_after_exec (fun _ => none) (fun _ => none) (fun _ => none) 1 (fun _ => none)).1 =
      .error (.rewardFileNotFoundError
        ("No reward file found at /logs/verifier/reward.txt or /logs/verifier/reward.json. " ++
          "Test script exit code was 1.")) ∧
    (score_after_exec (fun _ => none) (fun _ => none) (fun _ => none) 1 (fun _ => none)).2.1 =
      [] := by
  constructor
  · rfl
  · rfl

/-- Claim C4 (amended): removal of `/tests` and `/logs/verifier` is
attempted exactly when reward parsing succeeds; when parsing fails the
exception propagates before the cleanup call is reached, so no cleanup is
attempted; and the attempted cleanup swallows per-path failures of the
caught classes, attempting every path and logging a warning for each
failure instead of raising. -/
theorem c4_cleanup_after_scoring
    (pyfloat : String → Option Rat) (pyjson : String → Option JValue)
    (read_file : String → Option String) (exit_code : Int)
    (rm_failure : String → Option String) :
    (∀ x d, _parse_reward_file pyfloat pyjson read_file exit_code = .ok (x, d) →
      (score_after_exec pyfloat pyjson read_file exit_code rm_failure).2.1 =
        [SbOp.exec ["rm", "-rf", "/tests"] none,
         SbOp.exec ["rm", "-rf", "/logs/verifier"] none]) ∧
    (∀ e, _parse_reward_file pyfloat pyjson read_file exit_code = .error e →
      (score_after_exec pyfloat pyjson read_file exit_code rm_failure).1 = .error e ∧
      (score_after_exec pyfloat pyjson read_file exit_code rm_failure).2.1 = []) ∧
    (∀ paths, (cleanup_sandbox_directories rm_failure paths).1 =
        paths.map fun p => SbOp.exec ["rm", "-rf", p] none) := by
  refine ⟨fun x d h => ?_, fun e h => ?_, fun paths => rfl⟩
  · simp only [score_after_exec, h, cleanup_sandbox_directories, List.map]
  · constructor <;> simp only [score_after_exec, h]

/-- Witness for C4 (amended): with a concrete text reward file containing
`"1"`, parsing succeeds and the two cleanup exec operations are issued. -/
theorem c4_cleanup_after_scoring_witness :
    _parse_reward_file (fun s => if s = "1" then some 1 else none) (fun _ => none)
      (fun p => if p = reward_text_path then some "1" else none) 0 = .ok ((1 : Rat), none) ∧
    (score_after_exec (fun s => if s = "1" then some 1 else none) (fun _ => none)
      (fun p => if p = reward_text_path then some "1" else none) 0 (fun _ => none)).2.1 =
      [SbOp.exec ["rm", "-rf", "/tests"] none,
       SbOp.exec ["rm", "-rf", "/logs/verifier"] none] :=
  ⟨rfl,
    (c4_cleanup_after_scoring (fun s => if s = "1" then some 1 else none) (fun _ => none)
      (fun p => if p = reward_text_path then some "1" else none) 0 (fun _ => none)).1
      1 none rfl⟩

/-- Claim C5: resolving an environment-variable mapping replaces each value
that is exactly a `$\x7bNAME\x7d` placeholder by the host environment's value of
`NAME` (when every referenced variable is set), passes every other value
through unchanged preserving keys and order, raises an error naming the
(first) missing variable when a referenced variable is unset, and maps the
empty mapping to the empty mapping. -/
theorem c5_resolve_env_vars
    (os_environ : String → Option String) (env_dict : List (String × String)) :
    (resolve_env_vars os_environ ([] : List (String × String)) = .ok []) ∧
    ((∀ e ∈ env_dict, ∀ n, placeholderName e.2 = some n → (os_environ n).isSome) →
      resolve_env_vars os_environ env_dict =
        .ok (env_dict.map fun e =>
          (e.1, match placeholderName e.2 with
                | some n => (os_environ n).getD e.2
                | none => e.2))) ∧
    (∀ n, firstMissingVar os_environ env_dict = some n →
      resolve_env_vars os_environ env_dict =
        .error ("Environment variable \x27" ++ n ++ "\x27 not found in host environment")) ∧
    (firstMissingVar os_environ env_dict = none →
      ∃ out, resolve_env_vars os_environ env_dict = .ok out) := by
  refine ⟨rfl, ?_, ?_, ?_⟩
  · intro hall
    induction env_dict with
    | nil => rfl
    | cons hd tl ih =>
      obtain ⟨k, v⟩ := hd
      have htl := ih fun e he n hn => hall e (List.mem_cons_of_mem _ he) n hn
      simp only [resolve_env_vars, List.map]
      cases hph : placeholderName v with
      | none => simp only [htl, hph]
      | some n =>
        have hset := hall (k, v) (List.mem_cons_self _ _) n hph
        cases hos : os_environ n with
        | none => rw [hos] at hset; simp at hset
        | some x => simp only [hos, htl, hph, Option.getD]
  · intro n hn
    induction env_dict with
    | nil => simp [firstMissingVar] at hn
    | cons hd tl ih =>
      obtain ⟨k, v⟩ := hd
      cases hph : placeholderName v with
      | none =>
        simp only [firstMissingVar, List.findSome?_cons, hph] at hn
        simp only [resolve_env_vars, hph]
        rw [ih (by simpa [firstMissingVar] using hn)]
      | some m =>
        cases hos : os_environ m with
        | none =>
          simp [firstMissingVar, List.findSome?_cons, hph, hos] at hn
          cases hn
          simp only [resolve_env_vars, hph, hos]
        | some x =>
          simp [firstMissingVar, List.findSome?_cons, hph, hos] at hn
          simp only [resolve_env_vars, hph, hos]
          rw [ih (by simpa [firstMissingVar] using hn)]
  · intro hnone
    induction env_dict with
    | nil => exact ⟨[], rfl⟩
    | cons hd tl ih =>
      obtain ⟨k, v⟩ := hd
      cases hph : placeholderName v with
      | none =>
        simp only [firstMissingVar, List.findSome?_cons, hph] at hnone
        obtain ⟨out, hout⟩ := ih (by simpa [firstMissingVar] using hnone)
        exact ⟨(k, v) :: out, by simp only [resolve_env_vars, hph, hout]⟩
      | some m =>
        cases hos : os_environ m with
        | none => simp [firstMissingVar, List.findSome?_cons, hph, hos] at hnone
        | some x =>
          simp [firstMissingVar, List.findSome?_cons, hph, hos] at hnone
          obtain ⟨out, hout⟩ := ih (by simpa [firstMissingVar] using hnone)
          exact ⟨(k, x) :: out, by simp only [resolve_env_vars, hph, hos, hout]⟩

/-- Witness for C5 at concrete inputs: `$\x7bNAME\x7d` resolves to the host
value, a literal passes through, and a missing variable produces the error
naming it. -/
theorem c5_resolve_env_vars_witness :
    resolve_env_vars (fun n => if n = "NAME" then some "X" else none)
      [("k", "$\x7bNAME\x7d"), ("lit", "literal")] = .ok [("k", "X"), ("lit", "literal")] ∧
    resolve_env_vars (fun _ => none) [("k", "$\x7bMISSING\x7d")] =
      .error ("Environment variable \x27MISSING\x27 not found in host environment") :=
  ⟨by
    have h := (c5_resolve_env_vars (fun n => if n = "NAME" then some "X" else none)
      [("k", "$\x7bNAME\x7d"), ("lit", "literal")]).2.1 (by decide)
    simpa using h,
   by
    have h := (c5_resolve_env_vars (fun _ => none) [("k", "$\x7bMISSING\x7d")]).2.2.1
      "MISSING" (by decide)
    simpa using h⟩

/-- Counterexample to claim C6: at a concrete oracle input whose entry
script lies outside the solution directory, the run raises the
configuration error naming both paths — but only after the solution
directory has already been copied into the sandbox, so this failed check
does not abort before sandbox mutation. -/
theorem c6_oracle_counterexample :
    oracle '/' (fun _ => none)
      ⟨some ["tasks", "sol"], some ["other", "solve.sh"], []⟩
      ⟨[(["tasks", "sol", "a.txt"], [104, 105])], [["tasks", "sol"]]⟩ =
      (.error (.copySolutionDirError
        "Solve path other/solve.sh is not relative to solution directory tasks/sol"),
       [SbOp.write "/solution/a.txt" [104, 105]]) ∧
    [SbOp.write "/solution/a.txt" [104, 105]] ≠ ([] : List SbOp) := by
  exact ⟨rfl, by simp⟩

/-- Claim C6 (amended): missing solution-directory or entry-script metadata,
or a solution directory absent from the local filesystem, raises the
dedicated configuration error with no sandbox operation performed; an entry
script not lying underneath the solution directory raises the same
configuration error class with a message identifying both paths, but only
after the solution directory has been copied into the sandbox (that
mutation is left in place). -/
theorem c6_oracle_preconditions (sep : Char) (os_environ : String → Option String)
    (meta : OracleMeta) (fs : LocalFS) :
    (meta.solution_dir = none →
      oracle sep os_environ meta fs =
        (.error (.copySolutionDirError "solution_dir not found in metadata"), [])) ∧
    (∀ d, meta.solution_dir = some d → meta.solve_path = none →
      oracle sep os_environ meta fs =
        (.error (.copySolutionDirError "solve_path not found in metadata"), [])) ∧
    (∀ d s env, meta.solution_dir = some d → meta.solve_path = some s →
      oracleEnv os_environ meta = .ok env → pathExists fs d = false →
      oracle sep os_environ meta fs =
        (.error (.copySolutionDirError ("Solution directory not found: " ++ renderPath sep d)),
         [])) ∧
    (∀ d s env, meta.solution_dir = some d → meta.solve_path = some s →
      oracleEnv os_environ meta = .ok env → pathExists fs d = true → underOrEq d s = false →
      oracle sep os_environ meta fs =
        (.error (.copySolutionDirError
          ("Solve path " ++ renderPath sep s ++
            " is not relative to solution directory " ++ renderPath sep d)),
         copy_directory_to_sandbox sep fs d "/solution")) := by
  refine ⟨fun h1 => ?_, fun d h1 h2 => ?_, fun d s env h1 h2 h3 h4 => ?_,
    fun d s env h1 h2 h3 h4 h5 => ?_⟩
  · simp only [oracle, h1]
  · simp only [oracle, h1, h2]
  · simp only [oracle, h1, h2, h3, h4, Bool.false_eq_true, if_false]
  · simp only [oracle, h1, h2, h3, h4, if_true, h5, Bool.false_eq_true, if_false]

/-- Witness for C6 (amended): with concrete metadata whose solution
directory is absent from the local filesystem, the oracle raises the
configuration error and performs no sandbox operation. -/
theorem c6_oracle_preconditions_witness :
    oracleEnv (fun _ => none) ⟨some ["missing"], some ["missing", "s.sh"], []⟩ = .ok none ∧
    pathExists ⟨[], []⟩ ["missing"] = false ∧
    oracle '/' (fun _ => none) ⟨some ["missing"], some ["missing", "s.sh"], []⟩ ⟨[], []⟩ =
      (.error (.copySolutionDirError "Solution directory not found: missing"), []) :=
  ⟨rfl, rfl,
    (c6_oracle_preconditions '/' (fun _ => none)
      ⟨some ["missing"], some ["missing", "s.sh"], []⟩ ⟨[], []⟩).2.2.1
      ["missing"] ["missing", "s.sh"] none rfl rfl rfl rfl⟩

/-- Counterexample to claim C7: for the claimed scenario (declared CPU 2.0,
memory 4096 MB, GPU 0, prebuilt image, no pre-authored deployment file, no
overrides) the converter emits memory limit `"6144m"`, not `"4096m"`: the
6144 MB minimum-memory floor applies whenever no memory override is
given. -/
theorem c7_memory_floor_counterexample :
    (harbor_to_compose_config
      ⟨"/task/environment", none, false,
        ⟨some 2, some 4096, some 0, none, some "ubuntu:latest", true⟩⟩
      none none none).services.map (fun e => (e.1, e.2.mem_limit)) =
      [("default", some "6144m")] ∧
    ("6144m" : String) ≠ "4096m" := by
  exact ⟨by decide, by decide⟩

/-- Claim C7 (amended): for a task declaring CPU 2.0, memory 4096 MB, GPU
count 0 and a prebuilt image, with no pre-authored deployment file and no
overrides, the converter produces exactly one service with cpus 2.0, memory
limit `"6144m"` (the enforced 6144 MB floor), no deploy section, and
network mode `"bridge"` when internet access is allowed, `"none"`
otherwise. -/
theorem c7_prebuilt_image_scenario (envdir : String) (dfe : Bool) (ai : Bool)
    (gt : Option (List String)) (img : String) (himg : img ≠ "") :
    harbor_to_compose_config ⟨envdir, none, dfe, ⟨some 2, some 4096, some 0, gt, some img, ai⟩⟩
      none none none =
      ⟨[("default",
        { image := some img
          build := none
          cpus := some 2
          mem_limit := some "6144m"
          command := some "tail -f /dev/null"
          init := some true
          network_mode := some (if ai then "bridge" else "none")
          deploy := none })]⟩ := by
  have himg2 : img.isEmpty = false := by
    simp [String.isEmpty, String.endPos_eq_zero, himg]
  have hmax : max (4096 : Int) 6144 = 6144 := by decide
  simp only [harbor_to_compose_config, resolved_gpus, _create_gpu_deploy_config,
    pyTruthyStr, himg2, Bool.false_eq_true, if_false, Option.getD_some, hmax]
  norm_num
  rfl

/-- Witness for C7 (amended): the scenario at a fully concrete input. -/
theorem c7_prebuilt_image_scenario_witness :
    ("ubuntu:latest" : String) ≠ "" ∧
    harbor_to_compose_config
      ⟨"/e", none, false, ⟨some 2, some 4096, some 0, none, some "ubuntu:latest", true⟩⟩
      none none none =
      ⟨[("default",
        { image := some "ubuntu:latest"
          build := none
          cpus := some 2
          mem_limit := some "6144m"
          command := some "tail -f /dev/null"
          init := some true
          network_mode := some (if true then "bridge" else "none")
          deploy := none })]⟩ :=
  ⟨by decide, c7_prebuilt_image_scenario "/e" false true none "ubuntu:latest" (by decide)⟩

/-- Counterexample to claim C8: a conversion of a task with a pre-authored
deployment file whose service carries its own device-reservation block,
with override_gpus = 0 against a declared GPU count of 1, leaves that
pre-authored reservation in the resulting descriptor — a resolved GPU count
of 0 does not always yield a descriptor with no device reservation. -/
theorem c8_gpu_counterexample :
    ((harbor_to_compose_config
      ⟨"/e", some [("svc", { deploy := some ⟨⟨⟨[⟨1, ["gpu"], none⟩]⟩⟩⟩ })], false,
        ⟨some 1, some 2048, some 1, none, none, false⟩⟩
      none none (some 0)).services.map fun e => e.2.deploy) =
      [some ⟨⟨⟨[⟨1, ["gpu"], none⟩]⟩⟩⟩] ∧
    (some (⟨⟨⟨[⟨1, ["gpu"], none⟩]⟩⟩⟩ : ComposeDeploy) : Option ComposeDeploy) ≠ none := by
  exact ⟨by decide, by decide⟩

/-- Claim C8 (amended): a resolved GPU count of 0 or less — including
override_gpus = 0 over a declared count — yields no converter-generated
device reservation: the synthesized service carries no deploy section, and
a pre-authored service's own deploy section is left unchanged (so a
reservation the task author wrote survives).  A resolved GPU count greater
than 0 forces every service's deploy section to a device reservation with
exactly that count, the capability list `["gpu"]`, and, when a non-empty
GPU type list is declared, the comma-joined type names recorded as the
informational `gpu_types` option. -/
theorem c8_gpu_reservation (t : HarborTaskModel)
    (oc om og : Option Int) :
    (resolved_gpus t og ≤ 0 → t.compose_file = none →
      ((harbor_to_compose_config t oc om og).services.map fun e => e.2.deploy) = [none]) ∧
    (∀ l, resolved_gpus t og ≤ 0 → t.compose_file = some l →
      ((harbor_to_compose_config t oc om og).services.map fun e => e.2.deploy) =
        l.map fun e => e.2.deploy) ∧
    (0 < resolved_gpus t og →
      ∀ e ∈ (harbor_to_compose_config t oc om og).services,
        e.2.deploy = some ⟨⟨⟨[⟨resolved_gpus t og, ["gpu"],
          match t.config_environment.gpu_types with
          | some ts =>
            if ts.isEmpty then none else some [("gpu_types", String.intercalate "," ts)]
          | none => none⟩]⟩⟩⟩) := by
  have hdep : ∀ g, 0 < g →
      _create_gpu_deploy_config g t.config_environment.gpu_types =
        some ⟨⟨⟨[⟨g, ["gpu"],
          match t.config_environment.gpu_types with
          | some ts =>
            if ts.isEmpty then none else some [("gpu_types", String.intercalate "," ts)]
          | none => none⟩]⟩⟩⟩ := by
    intro g hg
    simp only [_create_gpu_deploy_config, if_neg (not_le.mpr hg)]
    cases hgt : t.config_environment.gpu_types with
    | none => simp
    | some ts =>
      cases hts : ts.isEmpty with
      | true => simp [hts]
      | false => simp [hts]
  have hnodep : ∀ g : Int, g ≤ 0 → _create_gpu_deploy_config g t.config_environment.gpu_types = none := by
    intro g hg
    simp only [_create_gpu_deploy_config, if_pos hg]
  refine ⟨fun hg hc => ?_, fun l hg hc => ?_, fun hg e he => ?_⟩
  · simp only [harbor_to_compose_config, hc, hnodep _ hg, List.map]
  · simp only [harbor_to_compose_config, hc, hnodep _ hg, List.map_map]
    rfl
  · cases hc : t.compose_file with
    | none =>
      simp only [harbor_to_compose_config, hc, hdep _ hg, List.mem_singleton] at he
      rw [he]
    | some l =>
      simp only [harbor_to_compose_config, hc, hdep _ hg, List.mem_map] at he
      obtain ⟨a, _, ha⟩ := he
      rw [← ha]

/-- Witness for C8 (amended): override_gpus = 0 against a declared GPU
count of 1 on a task with no pre-authored deployment file yields a
descriptor whose single service has no deploy section. -/
theorem c8_gpu_reservation_witness :
    resolved_gpus ⟨"/e", none, false, ⟨some 1, some 2048, some 1, none, none, false⟩⟩
      (some 0) ≤ 0 ∧
    ((harbor_to_compose_config
      ⟨"/e", none, false, ⟨some 1, some 2048, some 1, none, none, false⟩⟩
      none none (some 0)).services.map fun e => e.2.deploy) = [none] :=
  ⟨by decide,
    (c8_gpu_reservation ⟨"/e", none, false, ⟨some 1, some 2048, some 1, none, none, false⟩⟩
      none none (some 0)).1 (by decide) rfl⟩

/-- Two strings with the same character data are equal. -/
theorem string_data_ext (a b : String) (h : a.data = b.data) : a = b := by
  cases a; cases b; cases h; rfl

/-- String append concatenates the character data. -/
theorem string_data_append (a b : String) : (a ++ b).data = a.data ++ b.data := rfl

/-- A map that fixes every element of a list is the identity on it. -/
theorem map_id_of_fixed {α : Type} (f : α → α) :
    ∀ l : List α, (∀ c ∈ l, f c = c) → l.map f = l
  | [], _ => rfl
  | c :: cs, h => by
    rw [List.map_cons, h c (List.mem_cons_self c cs),
      map_id_of_fixed f cs fun c hc => h c (List.mem_cons_of_mem _ hc)]

/-- Separator normalization turns a host rendering (with `/` or `\`
separators) of a path with backslash-free components into the
forward-slash rendering. -/
theorem renderChars_norm (sep : Char) (hsep : sep = '/' ∨ sep = '\\') :
    ∀ p : List String, (∀ s ∈ p, '\\' ∉ s.data) →
      (renderChars sep p).map (fun c => if c = '\\' then '/' else c) = renderChars '/' p
  | [], _ => rfl
  | s :: rest, h => by
    have hs : s.data.map (fun c => if c = '\\' then '/' else c) = s.data :=
      map_id_of_fixed _ s.data fun c hc => by
        have : c ≠ '\\' := fun hcc => (h s (List.mem_cons_self s rest)) (hcc ▸ hc)
        simp [this]
    have hrest := renderChars_norm sep hsep rest fun u hu =>
      h u (List.mem_cons_of_mem _ hu)
    cases he : rest.isEmpty with
    | true => simp [renderChars, he, hs]
    | false =>
      have hsepn : (if sep = '\\' then '/' else sep) = '/' := by
        rcases hsep with h1 | h1 <;> simp [h1]
      simp [renderChars, he, hs, List.map_append, hrest, hsepn]

/-- Splitting a character list at the first slash is unambiguous. -/
theorem append_slash_inj :
    ∀ (a b t1 t2 : List Char), '/' ∉ a → '/' ∉ b →
      a ++ '/' :: t1 = b ++ '/' :: t2 → a = b ∧ t1 = t2
  | [], [], _, _, _, _, h => by simpa using h
  | [], b₀ :: bs, _, _, _, hb, h => by
    simp only [List.nil_append, List.cons_append, List.cons.injEq] at h
    exact absurd (h.1 ▸ List.mem_cons_self b₀ bs) hb
  | a₀ :: as, [], _, _, ha, _, h => by
    simp only [List.nil_append, List.cons_append, List.cons.injEq] at h
    exact absurd (h.1 ▸ List.mem_cons_self a₀ as) ha
  | a₀ :: as, b₀ :: bs, t1, t2, ha, hb, h => by
    simp only [List.cons_append, List.cons.injEq] at h
    have ih := append_slash_inj as bs t1 t2
      (fun hc => ha (List.mem_cons_of_mem _ hc))
      (fun hc => hb (List.mem_cons_of_mem _ hc)) h.2
    exact ⟨by rw [h.1, ih.1], ih.2⟩

/-- The forward-slash rendering is injective on paths whose components are
nonempty and slash-free. -/
theorem renderChars_slash_inj :
    ∀ (p q : List String), (∀ s ∈ p, s.data ≠ [] ∧ '/' ∉ s.data) →
      (∀ s ∈ q, s.data ≠ [] ∧ '/' ∉ s.data) →
      renderChars '/' p = renderChars '/' q → p = q
  | [], [], _, _, _ => rfl
  | [], u :: rest, _, hq, h => by
    simp only [renderChars] at h
    rcases List.append_eq_nil.mp h.symm with ⟨hu, _⟩
    exact absurd hu (hq u (List.mem_cons_self u rest)).1
  | s :: rest, [], hp, _, h => by
    simp only [renderChars] at h
    rcases List.append_eq_nil.mp h with ⟨hs, _⟩
    exact absurd hs (hp s (List.mem_cons_self s rest)).1
  | s :: rest1, u :: rest2, hp, hq, h => by
    simp only [renderChars] at h
    cases he1 : rest1.isEmpty with
    | true =>
      cases he2 : rest2.isEmpty with
      | true =>
        rw [he1, he2] at h
        simp only [if_true, List.append_nil] at h
        rw [List.isEmpty_iff.mp he1, List.isEmpty_iff.mp he2, string_data_ext s u h]
      | false =>
        rw [he1, he2] at h
        simp only [if_true, if_false, List.append_nil] at h
        have : '/' ∈ s.data := h ▸ List.mem_append_right _ (List.mem_cons_self _ _)
        exact absurd this (hp s (List.mem_cons_self s rest1)).2
    | false =>
      cases he2 : rest2.isEmpty with
      | true =>
        rw [he1, he2] at h
        simp only [if_true, if_false, List.append_nil] at h
        have : '/' ∈ u.data := h ▸ List.mem_append_right _ (List.mem_cons_self _ _)
        exact absurd this (hq u (List.mem_cons_self u rest2)).2
      | false =>
        rw [he1, he2] at h
        simp only [Bool.false_eq_true, if_false] at h
        have hsp := append_slash_inj s.data u.data _ _
          (hp s (List.mem_cons_self s rest1)).2 (hq u (List.mem_cons_self u rest2)).2 h
        have ih := renderChars_slash_inj rest1 rest2
          (fun w hw => hp w (List.mem_cons_of_mem _ hw))
          (fun w hw => hq w (List.mem_cons_of_mem _ hw)) hsp.2
        rw [string_data_ext s u hsp.1, ih]

/-- Reading back a key that no write in the batch targets yields nothing. -/
theorem readBack_map_none (g : (List String × List Nat) → String) :
    ∀ (l : List (List String × List Nat)) (key : String),
      (∀ e ∈ l, g e ≠ key) →
      readBack (l.map fun e => SbOp.write (g e) e.2) key = none
  | [], _, _ => rfl
  | hd :: tl, key, h => by
    simp only [List.map_cons, readBack,
      readBack_map_none g tl key fun e he => h e (List.mem_cons_of_mem _ he)]
    rw [if_neg (h hd (List.mem_cons_self hd tl))]

/-- When the written keys are distinct, reading back an entry's key yields
exactly that entry's content. -/
theorem readBack_map_mem (g : (List String × List Nat) → String) :
    ∀ (l : List (List String × List Nat)) (e : List String × List Nat),
      e ∈ l → (l.map g).Nodup →
      readBack (l.map fun e => SbOp.write (g e) e.2) (g e) = some e.2
  | hd :: tl, e, he, hnd => by
    rcases List.mem_cons.mp he with rfl | htl
    · have hni : ∀ w ∈ tl, g w ≠ g e := by
        intro w hw hgw
        exact (List.nodup_cons.mp hnd).1 (hgw ▸ List.mem_map_of_mem g hw)
      simp [List.map_cons, readBack, readBack_map_none g tl (g e) hni]
    · simp only [List.map_cons, readBack,
        readBack_map_mem g tl e htl (List.nodup_cons.mp hnd).2]

/-- Claim C9: copying a directory tree into the sandbox writes, for every
regular file at relative path `p` under the source, exactly that file's raw
bytes to `container/p` with separators normalized to forward slashes —
regardless of whether the host renders paths with `/` or `\` — so reading
back every destination path reproduces the original bytes exactly. -/
theorem c9_copy_round_trip (sep : Char) (hsep : sep = '/' ∨ sep = '\\')
    (fs : LocalFS) (dir : List String) (container : String)
    (hcont : '\\' ∉ container.data)
    (hwf : ∀ e ∈ filesUnder fs dir, ∀ s ∈ e.1, s.data ≠ [] ∧ '/' ∉ s.data ∧ '\\' ∉ s.data)
    (hnd : ((filesUnder fs dir).map Prod.fst).Nodup) :
    ∀ e ∈ filesUnder fs dir,
      readBack (copy_directory_to_sandbox sep fs dir container)
        (container ++ "/" ++ renderPath '/' e.1) = some e.2 := by
  intro e he
  have htarget : ∀ w ∈ filesUnder fs dir,
      SbOp.write (normalizeSep (container ++ "/" ++ renderPath sep w.1)) w.2 =
      SbOp.write (container ++ "/" ++ renderPath '/' w.1) w.2 := by
    intro w hw
    have hwcomp : ∀ s ∈ w.1, '\\' ∉ s.data := fun s hs => (hwf w hw s hs).2.2
    have hdata : (normalizeSep (container ++ "/" ++ renderPath sep w.1)).data =
        (container ++ "/" ++ renderPath '/' w.1).data := by
      simp only [normalizeSep, string_data_append, renderPath, List.map_append]
      rw [renderChars_norm sep hsep w.1 hwcomp,
        map_id_of_fixed _ container.data fun c hc => by
          have : c ≠ '\\' := fun hcc => hcont (hcc ▸ hc)
          simp [this]]
      rfl
    rw [string_data_ext _ _ hdata]
  have hcopy : copy_directory_to_sandbox sep fs dir container =
      (filesUnder fs dir).map fun w =>
        SbOp.write (container ++ "/" ++ renderPath '/' w.1) w.2 := by
    exact List.map_congr_left htarget
  have hgnd : ((filesUnder fs dir).map fun w =>
      (container ++ "/" ++ renderPath '/' w.1 : String)).Nodup := by
    have : ((filesUnder fs dir).map fun w =>
        (container ++ "/" ++ renderPath '/' w.1 : String)) =
        ((filesUnder fs dir).map Prod.fst).map fun r =>
          (container ++ "/" ++ renderPath '/' r : String) := by
      rw [List.map_map]; rfl
    rw [this]
    refine List.Nodup.map_on ?_ hnd
    intro r1 h1 r2 h2 heq
    have hd : renderChars '/' r1 = renderChars '/' r2 := by
      have := congrArg String.data heq
      simp only [string_data_append, renderPath] at this
      exact List.append_cancel_left this
    rcases List.mem_map.mp h1 with ⟨w1, hw1, rfl⟩
    rcases List.mem_map.mp h2 with ⟨w2, hw2, rfl⟩
    exact renderChars_slash_inj _ _
      (fun s hs => ⟨(hwf w1 hw1 s hs).1, (hwf w1 hw1 s hs).2.1⟩)
      (fun s hs => ⟨(hwf w2 hw2 s hs).1, (hwf w2 hw2 s hs).2.1⟩) hd
  rw [hcopy]
  exact readBack_map_mem _ (filesUnder fs dir) e he hgnd

/-- Witness for C9 at a concrete nested tree with binary content, rendered
with Windows-style backslash separators: the bytes read back intact at the
forward-slash destination path. -/
theorem c9_copy_round_trip_witness :
    (["sub", "b.bin"], [0, 255, 10]) ∈
      filesUnder ⟨[(["t", "sub", "b.bin"], [0, 255, 10]), (["t", "a.txt"], [104])], [["t"]]⟩
        ["t"] ∧
    readBack
      (copy_directory_to_sandbox '\\'
        ⟨[(["t", "sub", "b.bin"], [0, 255, 10]), (["t", "a.txt"], [104])], [["t"]]⟩
        ["t"] "/tests")
      ("/tests" ++ "/" ++ renderPath '/' ["sub", "b.bin"]) = some [0, 255, 10] :=
  ⟨by decide,
    c9_copy_round_trip '\\' (Or.inr rfl)
      ⟨[(["t", "sub", "b.bin"], [0, 255, 10]), (["t", "a.txt"], [104])], [["t"]]⟩
      ["t"] "/tests" (by decide) (by decide) (by decide)
      (["sub", "b.bin"], [0, 255, 10]) (by decide)⟩

/-- Claim C10: the directory-transfer operation never consults the
directory-existence information of the local filesystem (its output is
unchanged under any change to the recorded directories), and when no
regular file lies under the source directory — in particular when the
directory does not exist — it performs zero sandbox writes and returns
normally. -/
theorem c10_copy_missing_dir (sep : Char) (files : List (List String × List Nat))
    (d1 d2 : List (List String)) (dir : List String) (container : String) :
    (copy_directory_to_sandbox sep ⟨files, d1⟩ dir container =
      copy_directory_to_sandbox sep ⟨files, d2⟩ dir container) ∧
    (filesUnder ⟨files, d1⟩ dir = [] →
      copy_directory_to_sandbox sep ⟨files, d1⟩ dir container = []) := by
  refine ⟨rfl, fun h => ?_⟩
  simp only [copy_directory_to_sandbox, h, List.map_nil]

/-- Witness for C10: a source directory with no files under it (it does not
exist in the recorded filesystem) produces zero writes. -/
theorem c10_copy_missing_dir_witness :
    filesUnder ⟨[(["other", "x"], [1])], []⟩ ["gone"] = [] ∧
    copy_directory_to_sandbox '/' ⟨[(["other", "x"], [1])], []⟩ ["gone"] "/tests" = [] :=
  ⟨by decide,
    (c10_copy_missing_dir '/' [(["other", "x"], [1])] [] [] ["gone"] "/tests").2 (by decide)⟩






